import Mathlib

/-!
Shallow embedding of the SDL2/Vulkan demo (src/main.cpp) for checking the
natural-language specification against the code.

The embedding covers:
* the pure surface-capability helpers `getNumberOfSwapImages` (main.cpp:438-441)
  and `getSwapImageSize` (main.cpp:443-455);
* the error-checking shape of `createBuffer` (main.cpp:545-574) and
  `createDescriptorSet` (main.cpp:1446-1472);
* command-buffer recording `recordRenderPass` (main.cpp:1587-1639);
* submission `submitCommandBuffer` (main.cpp:1641-1667) and presentation
  `presentQueue` (main.cpp:1669-1690);
* the frame loop body and swapchain recreation path of `main`
  (main.cpp:1838-1887), as a state-plus-event-trace semantics.

Vulkan handles are modelled as natural numbers drawn from a monotone counter,
so distinct creations yield distinct handles.  C `unsigned int` arithmetic is
modelled on `Nat` with an explicit `% 2 ^ 32` where overflow can occur.
-/

namespace VulkanDemo

/-- The subset of `VkResult` values relevant to the program's control flow.
`success` is `VK_SUCCESS`; `errorOutOfDateKHR` is `VK_ERROR_OUT_OF_DATE_KHR`;
the remaining constructors stand for arbitrary other non-success results. -/
inductive VkResult where
  | success
  | suboptimalKHR
  | errorOutOfDateKHR
  | errorDeviceLost
  | errorSurfaceLostKHR
  | errorOutOfDeviceMemory
  deriving DecidableEq

/-- The `VkExtent2D` struct: a width/height pair of `uint32_t`. -/
structure VkExtent2D where
  width : Nat
  height : Nat
  deriving DecidableEq

/-- The fields of `VkSurfaceCapabilitiesKHR` that the embedded functions read. -/
structure VkSurfaceCapabilitiesKHR where
  minImageCount : Nat
  maxImageCount : Nat
  currentExtent : VkExtent2D
  minImageExtent : VkExtent2D
  maxImageExtent : VkExtent2D
  deriving DecidableEq

/-- Global `windowWidth` (main.cpp:19). -/
def windowWidth : Nat := 1280

/-- Global `windowHeight` (main.cpp:20). -/
def windowHeight : Nat := 720

/-- The `clamp` template (main.cpp:49-52), instantiated at `unsigned int`:
`(value < min) ? min : (value > max) ? max : value`. -/
def clamp (value lo hi : Nat) : Nat :=
  if value < lo then lo else if value > hi then hi else value

/-- Embeds `getNumberOfSwapImages` (main.cpp:438-441).  The source computes
`unsigned int number = capabilities.minImageCount + 1` — a 32-bit unsigned
increment, hence the `% 2 ^ 32` — and returns
`number > capabilities.maxImageCount ? capabilities.minImageCount : number`. -/
def getNumberOfSwapImages (capabilities : VkSurfaceCapabilitiesKHR) : Nat :=
  let number := (capabilities.minImageCount + 1) % 2 ^ 32
  if number > capabilities.maxImageCount then capabilities.minImageCount else number

/-- Embeds `getSwapImageSize` (main.cpp:443-455).  Note the source compares
`capabilities.currentExtent.width` against `0xFFFFFFF` (seven hex F, i.e.
268435455), not the Vulkan special value `0xFFFFFFFF`. -/
def getSwapImageSize (capabilities : VkSurfaceCapabilitiesKHR) : VkExtent2D :=
  let size : VkExtent2D := { width := windowWidth, height := windowHeight }
  if capabilities.currentExtent.width = 0xFFFFFFF then
    { width := clamp size.width capabilities.minImageExtent.width capabilities.maxImageExtent.width
      height := clamp size.height capabilities.minImageExtent.height capabilities.maxImageExtent.height }
  else
    capabilities.currentExtent

/-- Embeds `createBuffer` (main.cpp:545-574), keeping only its error-checking
shape.  The results of `vkCreateBuffer` and `vkAllocateMemory` are checked and
throw on non-success; the result of `vkBindBufferMemory` (main.cpp:571) is not
checked at all, so the function returns the handles whatever `bindResult` is. -/
def createBuffer (buffer memory : Nat)
    (createResult allocResult bindResult : VkResult) : Except String (Nat × Nat) :=
  if createResult ≠ VkResult.success then
    Except.error "failed to create vertex buffer!"
  else if allocResult ≠ VkResult.success then
    Except.error "failed to allocate vertex buffer memory!"
  else
    Except.ok (buffer, memory)

/-- Embeds `createDescriptorSet` (main.cpp:1446-1472).  The source calls
`vkCreateDescriptorPool` (main.cpp:1460) and `vkAllocateDescriptorSets`
(main.cpp:1469) without checking either result, and unconditionally returns
the pair of handles; there is no error path in the function. -/
def createDescriptorSet (descriptorPool descriptorSet : Nat)
    (poolResult allocResult : VkResult) : Except String (Nat × Nat) :=
  Except.ok (descriptorPool, descriptorSet)

/-- The pipeline stage used as wait destination in `submitCommandBuffer`
(main.cpp:1650): `VK_PIPELINE_STAGE_COLOR_ATTACHMENT_OUTPUT_BIT`. -/
inductive PipelineStage where
  | colorAttachmentOutput
  deriving DecidableEq

/-- The handle of the "image available" semaphore (created at main.cpp:1830). -/
def imageAvailableSemaphore : Nat := 900

/-- The handle of the "render finished" semaphore (created at main.cpp:1831). -/
def renderFinishedSemaphore : Nat := 901

/-- The fields of `VkSubmitInfo` filled by `submitCommandBuffer`
(main.cpp:1642-1657). -/
structure SubmitInfo where
  commandBuffers : List Nat
  waitSemaphores : List Nat
  waitDstStageMask : List PipelineStage
  signalSemaphores : List Nat
  deriving DecidableEq

/-- The fields of `VkPresentInfoKHR` filled by `presentQueue`
(main.cpp:1671-1678). -/
structure PresentInfo where
  waitSemaphores : List Nat
  swapchains : List Nat
  imageIndices : List Nat
  deriving DecidableEq

/-- The commands recorded into a command buffer by `recordRenderPass`. -/
inductive Cmd where
  | beginRenderPass (framebuffer : Nat) (clearValueCount : Nat)
  | bindPipeline
  | bindDescriptorSets
  | bindVertexBuffers
  | draw (vertexCount instanceCount firstVertex firstInstance : Nat)
  | endRenderPass
  deriving DecidableEq

/-- Embeds `recordRenderPass` (main.cpp:1587-1639) as the sequence of commands
it records: begin the render pass on the given framebuffer with two clear
values, bind pipeline, descriptor sets and vertex buffer, issue
`vkCmdDraw(commandBuffer, 12, 1, 0, 0)` (main.cpp:1632), end the pass. -/
def recordRenderPass (framebuffer : Nat) : List Cmd :=
  [Cmd.beginRenderPass framebuffer 2,
   Cmd.bindPipeline,
   Cmd.bindDescriptorSets,
   Cmd.bindVertexBuffers,
   Cmd.draw 12 1 0 0,
   Cmd.endRenderPass]

/-- Whether a recorded command is a draw call. -/
def isDraw : Cmd → Bool
  | Cmd.draw _ _ _ _ => true
  | _ => false

/-- Observable events of the frame loop (main.cpp:1838-1887), in program
order.  Resource-destroying and resource-creating events carry the handle of
the resource concerned; the three depth-resource events are kept distinct from
the swapchain image-view events. -/
inductive Event where
  | resetFences
  | acquire (result : VkResult) (index : Nat)
  | record (framebuffer commandBuffer : Nat)
  | submit (info : SubmitInfo)
  | queueWaitIdle
  | present (info : PresentInfo)
  | deviceWaitIdle
  | destroyFramebuffer (framebuffer : Nat)
  | destroyImageView (view : Nat)
  | destroySwapchain (swapchain : Nat)
  | destroyDepthView
  | destroyDepthImage
  | freeDepthMemory
  | createDepthBuffer (view : Nat)
  | createSwapchain (swapchain : Nat)
  | getSwapchainImages (count : Nat)
  | createImageView (view : Nat)
  | createFramebuffer (framebuffer : Nat)
  | waitForFences
  | resetCommandBuffer (commandBuffer : Nat)
  deriving DecidableEq

/-- The `VkSubmitInfo` built by `submitCommandBuffer` (main.cpp:1642-1657):
one command buffer, wait on the "image available" semaphore at the
color-attachment-output stage, signal the "render finished" semaphore. -/
def submitInfoFor (commandBuffer : Nat) : SubmitInfo :=
  { commandBuffers := [commandBuffer]
    waitSemaphores := [imageAvailableSemaphore]
    waitDstStageMask := [PipelineStage.colorAttachmentOutput]
    signalSemaphores := [renderFinishedSemaphore] }

/-- Embeds `submitCommandBuffer` (main.cpp:1641-1667).  `vkQueueSubmit` throws
on non-success before anything is submitted; on success the submit happens and
is immediately followed by `vkQueueWaitIdle`, whose non-success result throws
after the wait.  Returns the emitted events and the control-flow outcome. -/
def submitCommandBuffer (commandBuffer : Nat)
    (submitResult waitIdleResult : VkResult) : List Event × Except String Unit :=
  if submitResult ≠ VkResult.success then
    ([], Except.error "failed to submit command buffer!")
  else
    ([Event.submit (submitInfoFor commandBuffer), Event.queueWaitIdle],
     if waitIdleResult ≠ VkResult.success then
       Except.error "failed to wait for the graphics queue to be idle"
     else
       Except.ok ())

/-- The `VkPresentInfoKHR` built by `presentQueue` (main.cpp:1671-1678): wait
on the "render finished" semaphore, present the given image index of the given
swapchain. -/
def presentInfoFor (swapchain nextImage : Nat) : PresentInfo :=
  { waitSemaphores := [renderFinishedSemaphore]
    swapchains := [swapchain]
    imageIndices := [nextImage] }

/-- Embeds `presentQueue` (main.cpp:1669-1690): returns `ok true` on
`VK_SUCCESS`, `ok false` (signalling recreation to the caller) on
`VK_ERROR_OUT_OF_DATE_KHR`, and throws on every other result. -/
def presentQueue (swapchain nextImage : Nat)
    (result : VkResult) : List Event × Except String Bool :=
  ([Event.present (presentInfoFor swapchain nextImage)],
   if result ≠ VkResult.success then
     if result = VkResult.errorOutOfDateKHR then Except.ok false
     else Except.error "failed to present swap chain image!"
   else Except.ok true)

/-- The mutable state of `main`'s frame loop that the loop body touches.
`frameBuffers`, `chainImageViews`, `chainImages` and `commandBuffers` model
the four `std::vector`s of main.cpp:1754-1826; `swapchainImageCount` is the
image count of the current swapchain; `nextId` is the handle counter from
which fresh resource handles are drawn. -/
structure LoopState where
  frameBuffers : List Nat
  chainImageViews : List Nat
  chainImages : List Nat
  commandBuffers : List Nat
  swapchain : Nat
  swapchainImageCount : Nat
  depthImageView : Nat
  nextId : Nat
  deriving DecidableEq

/-- The results of the external (driver-decided) calls of one loop iteration:
what `vkAcquireNextImageKHR` returns (result and image index), what
`vkQueueSubmit` and `vkQueueWaitIdle` return inside `submitCommandBuffer`,
what `vkQueuePresentKHR` returns, and — when recreation runs — whether
`createSwapChain`/`getSwapChainImageHandles` succeed and how many images the
new swapchain has. -/
structure FrameEnv where
  acquireResult : VkResult
  acquireIndex : Nat
  submitResult : VkResult
  queueWaitIdleResult : VkResult
  presentResult : VkResult
  newImageCount : Nat
  createSwapChainOk : Bool
  getImagesOk : Bool
  deriving DecidableEq

/-- Outcome of one loop iteration: normal continuation, or process abort via
an uncaught `std::runtime_error` with the given message. -/
inductive Outcome where
  | ok
  | fatal (msg : String)
  deriving DecidableEq

/-- Embeds the loop of `makeFramebuffers` (main.cpp:1109-1124): for each
`i < chainImageViews.size()` it writes a freshly created framebuffer handle
into `frameBuffers[i]` — into the EXISTING vector, which is never resized.
`count` is `chainImageViews.size()`, `i` the loop index, `nid` the fresh
handle counter.  An index at or beyond `frameBuffers.size()` is an
out-of-bounds `std::vector` write (undefined behaviour in the source);
`List.set` models it as leaving the list unchanged.  Returns the updated
vector, the advanced counter and the creation events. -/
def makeFramebuffersLoop : Nat → Nat → List Nat → Nat → List Nat × Nat × List Event
  | 0, _, frameBuffers, nid => (frameBuffers, nid, [])
  | Nat.succ k, i, frameBuffers, nid =>
      let created := nid
      let rest := makeFramebuffersLoop k (i + 1) (frameBuffers.set i created) (nid + 1)
      (rest.1, rest.2.1, Event.createFramebuffer created :: rest.2.2)

/-- Embeds the swapchain-recreation block of `main` (main.cpp:1856-1881):
`vkDeviceWaitIdle`; destroy every framebuffer, every chain image view and the
swapchain; destroy the depth view/image/memory; then `createDepthBuffer`,
`createSwapChain` (throwing "failed to recreate swap chain" on failure),
`getSwapChainImageHandles` (throwing on failure, and resizing `chainImages`
to the new count), `makeChainImageViews` (resizing `chainImageViews`), and
`makeFramebuffers` (writing into the un-resized `frameBuffers` vector). -/
def recreate (env : FrameEnv) (s : LoopState) : LoopState × List Event × Outcome :=
  let destroyEvents :=
    Event.deviceWaitIdle ::
      (s.frameBuffers.map Event.destroyFramebuffer
        ++ s.chainImageViews.map Event.destroyImageView
        ++ [Event.destroySwapchain s.swapchain,
            Event.destroyDepthView, Event.destroyDepthImage, Event.freeDepthMemory])
  let depthView := s.nextId
  let n1 := s.nextId + 1
  let events1 := destroyEvents ++ [Event.createDepthBuffer depthView]
  if env.createSwapChainOk = false then
    ({ s with depthImageView := depthView, nextId := n1 },
     events1, Outcome.fatal "failed to recreate swap chain")
  else
    let newSwapchain := n1
    let n2 := n1 + 1
    let events2 := events1 ++ [Event.createSwapchain newSwapchain]
    if env.getImagesOk = false then
      ({ s with depthImageView := depthView, swapchain := newSwapchain, nextId := n2 },
       events2, Outcome.fatal "failed to re-obtain swap chain images")
    else
      let count := env.newImageCount
      let images := (List.range count).map (fun j => n2 + j)
      let n3 := n2 + count
      let views := (List.range count).map (fun j => n3 + j)
      let n4 := n3 + count
      let events3 := events2 ++ [Event.getSwapchainImages count]
        ++ views.map Event.createImageView
      let made := makeFramebuffersLoop count 0 s.frameBuffers n4
      ({ frameBuffers := made.1
         chainImageViews := views
         chainImages := images
         commandBuffers := s.commandBuffers
         swapchain := newSwapchain
         swapchainImageCount := count
         depthImageView := depthView
         nextId := made.2.1 },
       events3 ++ made.2.2, Outcome.ok)

/-- Embeds one iteration of `main`'s frame loop (main.cpp:1844-1886):
`vkResetFences`; `vkAcquireNextImageKHR`, throwing on ANY non-success result
(main.cpp:1847-1850); `recordRenderPass` on `frameBuffers[nextImage]` and
`commandBuffers[nextImage]`; `submitCommandBuffer`; `presentQueue`, running
the recreation block when it reports out-of-date; finally `vkWaitForFences`
and `vkResetCommandBuffer(commandBuffers[nextImage])`.  Returns the state
after the iteration, the event trace, and the outcome. -/
def frameBody (env : FrameEnv) (s : LoopState) : LoopState × List Event × Outcome :=
  let trace0 := [Event.resetFences, Event.acquire env.acquireResult env.acquireIndex]
  if env.acquireResult ≠ VkResult.success then
    (s, trace0, Outcome.fatal "vkAcquireNextImageKHR failed")
  else
    let i := env.acquireIndex
    let framebuffer := s.frameBuffers.getD i 0
    let commandBuffer := s.commandBuffers.getD i 0
    let trace1 := trace0 ++ [Event.record framebuffer commandBuffer]
    let submitted := submitCommandBuffer commandBuffer env.submitResult env.queueWaitIdleResult
    match submitted.2 with
    | Except.error msg => (s, trace1 ++ submitted.1, Outcome.fatal msg)
    | Except.ok _ =>
      let presented := presentQueue s.swapchain i env.presentResult
      let trace2 := trace1 ++ submitted.1 ++ presented.1
      match presented.2 with
      | Except.error msg => (s, trace2, Outcome.fatal msg)
      | Except.ok true =>
          (s, trace2 ++ [Event.waitForFences, Event.resetCommandBuffer commandBuffer],
           Outcome.ok)
      | Except.ok false =>
          let rebuilt := recreate env s
          match rebuilt.2.2 with
          | Outcome.fatal msg => (rebuilt.1, trace2 ++ rebuilt.2.1, Outcome.fatal msg)
          | Outcome.ok =>
              (rebuilt.1,
               trace2 ++ rebuilt.2.1
                 ++ [Event.waitForFences, Event.resetCommandBuffer commandBuffer],
               Outcome.ok)

/-- Runs the frame loop over a list of per-iteration environments, stopping at
the first fatal outcome, and concatenating the event traces. -/
def runLoop : List FrameEnv → LoopState → LoopState × List Event × Outcome
  | [], s => (s, [], Outcome.ok)
  | env :: rest, s =>
      let step := frameBody env s
      match step.2.2 with
      | Outcome.fatal msg => (step.1, step.2.1, Outcome.fatal msg)
      | Outcome.ok =>
          let conts := runLoop rest step.1
          (conts.1, step.2.1 ++ conts.2.1, conts.2.2)

/-- Whether an event destroys a swapchain-dependent resource (framebuffer,
chain image view, swapchain, or one of the depth resources). -/
def isDestroyEvent : Event → Bool
  | Event.destroyFramebuffer _ => true
  | Event.destroyImageView _ => true
  | Event.destroySwapchain _ => true
  | Event.destroyDepthView => true
  | Event.destroyDepthImage => true
  | Event.freeDepthMemory => true
  | _ => false

/-- Whether an event creates (or re-obtains) a swapchain-dependent resource:
depth buffer, swapchain, swapchain image handles, image view, framebuffer. -/
def isCreateEvent : Event → Bool
  | Event.createDepthBuffer _ => true
  | Event.createSwapchain _ => true
  | Event.getSwapchainImages _ => true
  | Event.createImageView _ => true
  | Event.createFramebuffer _ => true
  | _ => false

/-- True when no destroy event occurs before the first `deviceWaitIdle` of the
trace (vacuously covering traces with no `deviceWaitIdle` and no destroys). -/
def noDestroyBeforeWaitIdle : List Event → Bool
  | [] => true
  | Event.deviceWaitIdle :: _ => true
  | e :: rest => !isDestroyEvent e && noDestroyBeforeWaitIdle rest

/-- True when no destroy event occurs anywhere after a create event: once the
trace starts creating resources, nothing is destroyed any more. -/
def noDestroyAfterCreate : List Event → Bool
  | [] => true
  | e :: rest =>
      if isCreateEvent e then rest.all (fun x => !isDestroyEvent x)
      else noDestroyAfterCreate rest

/-- The framebuffer handles destroyed in a trace, in order. -/
def destroyedIn : List Event → List Nat
  | [] => []
  | Event.destroyFramebuffer fb :: rest => fb :: destroyedIn rest
  | _ :: rest => destroyedIn rest

/-- Scans a trace with an accumulator of already-destroyed framebuffer
handles; `false` as soon as some `record` event targets a framebuffer that an
earlier `destroyFramebuffer` event destroyed. -/
def recordSafeFrom (destroyed : List Nat) : List Event → Bool
  | [] => true
  | Event.destroyFramebuffer fb :: rest => recordSafeFrom (destroyed ++ [fb]) rest
  | Event.record fb _ :: rest => !destroyed.contains fb && recordSafeFrom destroyed rest
  | _ :: rest => recordSafeFrom destroyed rest

/-- A trace never records a command buffer against a previously destroyed
framebuffer. -/
def recordSafe (trace : List Event) : Bool :=
  recordSafeFrom [] trace

/-- Flag-passing scanner for `submitsAwaited`: the flag is `true` exactly when
the previous event was a `submit` and the next event must be `queueWaitIdle`. -/
def submitsAwaitedAux : Bool → List Event → Bool
  | true, [] => false
  | true, Event.queueWaitIdle :: rest => submitsAwaitedAux false rest
  | true, _ :: _ => false
  | false, [] => true
  | false, Event.submit _ :: rest => submitsAwaitedAux true rest
  | false, _ :: rest => submitsAwaitedAux false rest

/-- Every `submit` event of the trace is immediately followed by a
`queueWaitIdle` event (and the trace does not end on a bare `submit`). -/
def submitsAwaited (trace : List Event) : Bool :=
  submitsAwaitedAux false trace

/-- The scanner flag left over after processing a trace: `true` iff the trace
ends with a `submit` event (taking the starting flag for the empty trace). -/
def trailFlag : Bool → List Event → Bool
  | b, [] => b
  | _, Event.submit _ :: rest => trailFlag true rest
  | _, _ :: rest => trailFlag false rest

/-- Whether one loop iteration with environment `env` completes the swapchain
recreation: acquire, submit and queue-wait succeed, presentation reports
out-of-date, and both recreation steps succeed. -/
def recreationHappens (env : FrameEnv) : Bool :=
  env.acquireResult == VkResult.success
    && env.submitResult == VkResult.success
    && env.queueWaitIdleResult == VkResult.success
    && env.presentResult == VkResult.errorOutOfDateKHR
    && env.createSwapChainOk && env.getImagesOk

/-- The swapchain image count after one iteration: changed to
`env.newImageCount` exactly when the recreation block ran to completion. -/
def nextCount (env : FrameEnv) (count : Nat) : Nat :=
  if recreationHappens env then env.newImageCount else count

/-- Well-formedness of a run's environments against the fixed length `len` of
the (never resized) framebuffer vector and the evolving image count: each
acquire returns an index below the current swapchain's image count (the Vulkan
contract for `vkAcquireNextImageKHR`), and each recreated swapchain has no more images
than the framebuffer vector has slots (the regime in which `makeFramebuffers`
performs no out-of-bounds write). -/
def validEnvs (len : Nat) : List FrameEnv → Nat → Bool
  | [], _ => true
  | env :: rest, count =>
      decide (env.acquireIndex < count)
        && decide (env.newImageCount ≤ len)
        && validEnvs len rest (nextCount env count)

/-- Well-formedness of the loop state relative to the set of framebuffer
handles destroyed so far: all destroyed handles and all handles stored in the
framebuffer vector are below the fresh-handle counter, no framebuffer indexed
below the current image count is a destroyed one, and the image count does not
exceed the framebuffer vector's length. -/
def StateWF (destroyed : List Nat) (s : LoopState) : Prop :=
  (∀ fb ∈ destroyed, fb < s.nextId)
    ∧ (∀ fb ∈ s.frameBuffers, fb < s.nextId)
    ∧ (∀ j, j < s.swapchainImageCount → s.frameBuffers.getD j 0 ∉ destroyed)
    ∧ s.swapchainImageCount ≤ s.frameBuffers.length

/-! ### Shape lemmas for the frame body -/

/-- When acquisition fails (with any non-success result), the iteration throws
immediately: no recording, no submission, no recreation. -/
theorem frameBody_acquire_fail (env : FrameEnv) (s : LoopState)
    (h : env.acquireResult ≠ VkResult.success) :
    frameBody env s =
      (s, [Event.resetFences, Event.acquire env.acquireResult env.acquireIndex],
       Outcome.fatal "vkAcquireNextImageKHR failed") := by
  simp only [frameBody, if_pos h]

/-- When every call succeeds and presentation reports success, the iteration
leaves the state unchanged and emits the plain acquire/record/submit/wait/
present/fence-wait/reset trace. -/
theorem frameBody_present_ok (env : FrameEnv) (s : LoopState)
    (h1 : env.acquireResult = VkResult.success)
    (h2 : env.submitResult = VkResult.success)
    (h3 : env.queueWaitIdleResult = VkResult.success)
    (h4 : env.presentResult = VkResult.success) :
    frameBody env s =
      (s,
       [Event.resetFences, Event.acquire VkResult.success env.acquireIndex,
        Event.record (s.frameBuffers.getD env.acquireIndex 0)
          (s.commandBuffers.getD env.acquireIndex 0),
        Event.submit (submitInfoFor (s.commandBuffers.getD env.acquireIndex 0)),
        Event.queueWaitIdle,
        Event.present (presentInfoFor s.swapchain env.acquireIndex),
        Event.waitForFences,
        Event.resetCommandBuffer (s.commandBuffers.getD env.acquireIndex 0)],
       Outcome.ok) := by
  simp [frameBody, submitCommandBuffer, presentQueue, h1, h2, h3, h4]

/-- When every call up to presentation succeeds and presentation reports a
non-success result other than out-of-date, the iteration throws the present
error and performs no recreation. -/
theorem frameBody_present_other_fail (env : FrameEnv) (s : LoopState)
    (h1 : env.acquireResult = VkResult.success)
    (h2 : env.submitResult = VkResult.success)
    (h3 : env.queueWaitIdleResult = VkResult.success)
    (h4 : env.presentResult ≠ VkResult.success)
    (h5 : env.presentResult ≠ VkResult.errorOutOfDateKHR) :
    frameBody env s =
      (s,
       [Event.resetFences, Event.acquire VkResult.success env.acquireIndex,
        Event.record (s.frameBuffers.getD env.acquireIndex 0)
          (s.commandBuffers.getD env.acquireIndex 0),
        Event.submit (submitInfoFor (s.commandBuffers.getD env.acquireIndex 0)),
        Event.queueWaitIdle,
        Event.present (presentInfoFor s.swapchain env.acquireIndex)],
       Outcome.fatal "failed to present swap chain image!") := by
  simp [frameBody, submitCommandBuffer, presentQueue, h1, h2, h3, h4, h5]

/-- The recreation block when `createSwapChain` and
`getSwapChainImageHandles` both succeed: device-idle wait, destruction of all
framebuffers, all chain image views, the swapchain and the depth resources,
then creation of the new depth buffer, swapchain, image handles, image views
and framebuffers, the latter written into the un-resized framebuffer vector. -/
theorem recreate_ok (env : FrameEnv) (s : LoopState)
    (hc : env.createSwapChainOk = true) (hg : env.getImagesOk = true) :
    recreate env s =
      ({ frameBuffers :=
           (makeFramebuffersLoop env.newImageCount 0 s.frameBuffers
             (s.nextId + 1 + 1 + env.newImageCount + env.newImageCount)).1
         chainImageViews :=
           (List.range env.newImageCount).map
             (fun j => s.nextId + 1 + 1 + env.newImageCount + j)
         chainImages := (List.range env.newImageCount).map (fun j => s.nextId + 1 + 1 + j)
         commandBuffers := s.commandBuffers
         swapchain := s.nextId + 1
         swapchainImageCount := env.newImageCount
         depthImageView := s.nextId
         nextId :=
           (makeFramebuffersLoop env.newImageCount 0 s.frameBuffers
             (s.nextId + 1 + 1 + env.newImageCount + env.newImageCount)).2.1 },
       Event.deviceWaitIdle ::
         (s.frameBuffers.map Event.destroyFramebuffer
           ++ s.chainImageViews.map Event.destroyImageView
           ++ [Event.destroySwapchain s.swapchain,
               Event.destroyDepthView, Event.destroyDepthImage, Event.freeDepthMemory])
         ++ [Event.createDepthBuffer s.nextId]
         ++ [Event.createSwapchain (s.nextId + 1)]
         ++ [Event.getSwapchainImages env.newImageCount]
         ++ ((List.range env.newImageCount).map
              (fun j => s.nextId + 1 + 1 + env.newImageCount + j)).map Event.createImageView
         ++ (makeFramebuffersLoop env.newImageCount 0 s.frameBuffers
              (s.nextId + 1 + 1 + env.newImageCount + env.newImageCount)).2.2,
       Outcome.ok) := by
  simp [recreate, hc, hg, List.append_assoc]

/-- The full out-of-date iteration with successful recreation: the frame
prefix, then the recreation trace of `recreate_ok`, then the fence wait and
command-buffer reset; the outcome is normal continuation with the recreated
state. -/
theorem frameBody_out_of_date (env : FrameEnv) (s : LoopState)
    (h1 : env.acquireResult = VkResult.success)
    (h2 : env.submitResult = VkResult.success)
    (h3 : env.queueWaitIdleResult = VkResult.success)
    (h4 : env.presentResult = VkResult.errorOutOfDateKHR)
    (hc : env.createSwapChainOk = true) (hg : env.getImagesOk = true) :
    frameBody env s =
      ((recreate env s).1,
       [Event.resetFences, Event.acquire VkResult.success env.acquireIndex,
        Event.record (s.frameBuffers.getD env.acquireIndex 0)
          (s.commandBuffers.getD env.acquireIndex 0),
        Event.submit (submitInfoFor (s.commandBuffers.getD env.acquireIndex 0)),
        Event.queueWaitIdle,
        Event.present (presentInfoFor s.swapchain env.acquireIndex)]
         ++ (recreate env s).2.1
         ++ [Event.waitForFences,
             Event.resetCommandBuffer (s.commandBuffers.getD env.acquireIndex 0)],
       Outcome.ok) := by
  have hr : (recreate env s).2.2 = Outcome.ok := by
    simp [recreate, hc, hg]
  simp [frameBody, submitCommandBuffer, presentQueue, h1, h2, h3, h4, hr,
    List.append_assoc]

/-- The out-of-date iteration in the general case: the frame prefix, the
recreation trace, and — only when recreation succeeds — the trailing fence
wait and command-buffer reset; the outcome is the recreation's outcome. -/
theorem frameBody_ood_split (env : FrameEnv) (s : LoopState)
    (h1 : env.acquireResult = VkResult.success)
    (h2 : env.submitResult = VkResult.success)
    (h3 : env.queueWaitIdleResult = VkResult.success)
    (h4 : env.presentResult = VkResult.errorOutOfDateKHR) :
    frameBody env s =
      ((recreate env s).1,
       [Event.resetFences, Event.acquire VkResult.success env.acquireIndex,
        Event.record (s.frameBuffers.getD env.acquireIndex 0)
          (s.commandBuffers.getD env.acquireIndex 0),
        Event.submit (submitInfoFor (s.commandBuffers.getD env.acquireIndex 0)),
        Event.queueWaitIdle,
        Event.present (presentInfoFor s.swapchain env.acquireIndex)]
         ++ (recreate env s).2.1
         ++ (match (recreate env s).2.2 with
             | Outcome.ok =>
                 [Event.waitForFences,
                  Event.resetCommandBuffer (s.commandBuffers.getD env.acquireIndex 0)]
             | Outcome.fatal _ => []),
       (recreate env s).2.2) := by
  simp only [frameBody, submitCommandBuffer, presentQueue, h1, h2, h3, h4]
  cases hr : (recreate env s).2.2 with
  | ok => simp [hr, List.append_assoc]
  | fatal msg => simp [hr, List.append_assoc]

/-! ### Concrete sample inputs used by counterexamples and witnesses -/

/-- A loop state as after startup with a 3-image swapchain: three
framebuffers, three chain image views, three images, three command buffers. -/
def sampleState : LoopState :=
  { frameBuffers := [10, 11, 12]
    chainImageViews := [20, 21, 22]
    chainImages := [1, 2, 3]
    commandBuffers := [40, 41, 42]
    swapchain := 5
    swapchainImageCount := 3
    depthImageView := 6
    nextId := 50 }

/-- An iteration in which every call succeeds and presentation reports
success; the acquired image index is 0. -/
def envPresentOk : FrameEnv :=
  { acquireResult := VkResult.success, acquireIndex := 0
    submitResult := VkResult.success, queueWaitIdleResult := VkResult.success
    presentResult := VkResult.success, newImageCount := 3
    createSwapChainOk := true, getImagesOk := true }

/-- An iteration in which presentation reports `VK_ERROR_OUT_OF_DATE_KHR` and
the recreated swapchain again has 3 images. -/
def envOutOfDate : FrameEnv :=
  { envPresentOk with acquireIndex := 1, presentResult := VkResult.errorOutOfDateKHR }

/-- An iteration in which presentation reports `VK_ERROR_OUT_OF_DATE_KHR` and
the recreated swapchain has only 2 images (fewer than the original 3). -/
def envShrinkRecreate : FrameEnv :=
  { envOutOfDate with newImageCount := 2 }

/-- An iteration in which `vkAcquireNextImageKHR` itself reports
`VK_ERROR_OUT_OF_DATE_KHR`. -/
def envAcquireOutOfDate : FrameEnv :=
  { envPresentOk with acquireResult := VkResult.errorOutOfDateKHR }

/-- An iteration in which `vkAcquireNextImageKHR` reports
`VK_ERROR_DEVICE_LOST`. -/
def envAcquireLost : FrameEnv :=
  { envPresentOk with acquireResult := VkResult.errorDeviceLost }

/-- Surface capabilities whose `minImageCount` is the largest 32-bit unsigned
value, so that the `minImageCount + 1` in `getNumberOfSwapImages` wraps to 0. -/
def capsOverflow : VkSurfaceCapabilitiesKHR :=
  { minImageCount := 2 ^ 32 - 1, maxImageCount := 5
    currentExtent := { width := 640, height := 480 }
    minImageExtent := { width := 1, height := 1 }
    maxImageExtent := { width := 4096, height := 4096 } }

/-- Surface capabilities with `maxImageCount = 0`, Vulkan's encoding of
"no limit on the number of images". -/
def capsNoLimit : VkSurfaceCapabilitiesKHR :=
  { capsOverflow with minImageCount := 2, maxImageCount := 0 }

/-- Surface capabilities with an ordinary fixed `currentExtent`. -/
def capsFixedExtent : VkSurfaceCapabilitiesKHR :=
  { capsOverflow with minImageCount := 2, maxImageCount := 8 }

/-- Surface capabilities whose `currentExtent.width` is `0xFFFFFFF` (seven
hex F), the value the source actually compares against. -/
def capsFlexExtent : VkSurfaceCapabilitiesKHR :=
  { capsFixedExtent with currentExtent := { width := 0xFFFFFFF, height := 480 } }

/-- Surface capabilities whose `currentExtent.width` is the Vulkan special
value `0xFFFFFFFF` (eight hex F). -/
def capsSpecialExtent : VkSurfaceCapabilitiesKHR :=
  { capsFixedExtent with currentExtent := { width := 0xFFFFFFFF, height := 480 } }

/-! ### C8: one draw call per recorded command buffer -/

/-- C8: every recorded command buffer issues exactly one draw call, with the
fixed constant vertex count 12 (and instance count 1, first vertex 0, first
instance 0): filtering the recorded commands for draw calls yields the single
command `vkCmdDraw(_, 12, 1, 0, 0)` of main.cpp:1632, whatever framebuffer is
targeted. -/
theorem C8_single_draw_call_twelve_vertices (framebuffer : Nat) :
    (recordRenderPass framebuffer).filter isDraw = [Cmd.draw 12 1 0 0] := rfl

/-! ### C9: getNumberOfSwapImages -/

/-- Unfolding equation for `getNumberOfSwapImages`. -/
theorem getNumberOfSwapImages_eq (c : VkSurfaceCapabilitiesKHR) :
    getNumberOfSwapImages c =
      if (c.minImageCount + 1) % 2 ^ 32 > c.maxImageCount then c.minImageCount
      else (c.minImageCount + 1) % 2 ^ 32 := rfl

/-- C9, counterexample: the claim that `getNumberOfSwapImages` returns
`minImageCount + 1` when that is at most `maxImageCount` and `minImageCount`
otherwise fails at `minImageCount = 2 ^ 32 - 1`: the 32-bit unsigned
increment wraps to 0, `0 > maxImageCount` is false, and the function returns
0 rather than the claimed `minImageCount = 2 ^ 32 - 1`. -/
theorem C9_counterexample :
    ¬ getNumberOfSwapImages capsOverflow =
        (if capsOverflow.minImageCount + 1 ≤ capsOverflow.maxImageCount then
          capsOverflow.minImageCount + 1
        else capsOverflow.minImageCount) := by decide

/-- C9, amended: for every surface-capabilities value whose `minImageCount + 1`
does not overflow 32-bit unsigned arithmetic, `getNumberOfSwapImages` returns
`minImageCount + 1` when that is at most `maxImageCount` and `minImageCount`
otherwise; in particular, when `maxImageCount = 0` (Vulkan's "no limit") it
returns `minImageCount`, not `minImageCount + 1`. -/
theorem C9_swap_image_count (c : VkSurfaceCapabilitiesKHR)
    (h : c.minImageCount + 1 < 2 ^ 32) :
    getNumberOfSwapImages c =
      (if c.minImageCount + 1 ≤ c.maxImageCount then c.minImageCount + 1
       else c.minImageCount)
    ∧ (c.maxImageCount = 0 → getNumberOfSwapImages c = c.minImageCount) := by
  rw [getNumberOfSwapImages_eq, Nat.mod_eq_of_lt h]
  refine ⟨?_, ?_⟩
  · by_cases hle : c.minImageCount + 1 ≤ c.maxImageCount
    · rw [if_neg (by omega), if_pos hle]
    · rw [if_pos (by omega), if_neg hle]
  · intro hmax
    rw [if_pos (by omega)]

/-- Witness for `C9_swap_image_count` at `capsNoLimit`
(`minImageCount = 2`, `maxImageCount = 0`). -/
theorem C9_swap_image_count_witness :
    getNumberOfSwapImages capsNoLimit = capsNoLimit.minImageCount :=
  (C9_swap_image_count capsNoLimit (by decide)).2 (by decide)

/-! ### C10: getSwapImageSize -/

/-- Unfolding equation for `getSwapImageSize`. -/
theorem getSwapImageSize_eq (c : VkSurfaceCapabilitiesKHR) :
    getSwapImageSize c =
      if c.currentExtent.width = 0xFFFFFFF then
        { width := clamp windowWidth c.minImageExtent.width c.maxImageExtent.width
          height := clamp windowHeight c.minImageExtent.height c.maxImageExtent.height }
      else c.currentExtent := rfl

/-- C10: `getSwapImageSize` returns `currentExtent` unchanged unless
`currentExtent.width` is exactly `0xFFFFFFF` (seven hex F), in which case it
returns the configured window size clamped to the min/max image extents; in
particular the Vulkan special value `0xFFFFFFFF` is returned unchanged and
unclamped. -/
theorem C10_swap_image_size (c : VkSurfaceCapabilitiesKHR) :
    (c.currentExtent.width ≠ 0xFFFFFFF → getSwapImageSize c = c.currentExtent)
    ∧ (c.currentExtent.width = 0xFFFFFFFF → getSwapImageSize c = c.currentExtent)
    ∧ (c.currentExtent.width = 0xFFFFFFF →
        getSwapImageSize c =
          { width := clamp windowWidth c.minImageExtent.width c.maxImageExtent.width
            height := clamp windowHeight c.minImageExtent.height c.maxImageExtent.height }) := by
  rw [getSwapImageSize_eq]
  refine ⟨fun h => if_neg h, fun h => if_neg (by omega), fun h => if_pos h⟩

/-- Witness for `C10_swap_image_size`: a fixed extent is returned unchanged;
the seven-F extent yields the clamped window size (1280 × 720 under the sample
bounds 1..4096). -/
theorem C10_swap_image_size_witness :
    getSwapImageSize capsFixedExtent = capsFixedExtent.currentExtent
    ∧ getSwapImageSize capsSpecialExtent = capsSpecialExtent.currentExtent
    ∧ getSwapImageSize capsFlexExtent = { width := 1280, height := 720 } :=
  ⟨(C10_swap_image_size capsFixedExtent).1 (by decide),
   (C10_swap_image_size capsSpecialExtent).2.1 (by decide),
   ((C10_swap_image_size capsFlexExtent).2.2 (by decide)).trans (by decide)⟩

/-! ### C3: error handling outside the presentation step -/

/-- C3, counterexample: the claim that no Vulkan call's failure outside the
presentation step is silently ignored fails at `createDescriptorSet`
(main.cpp:1446-1472): with both `vkCreateDescriptorPool` and
`vkAllocateDescriptorSets` returning `VK_ERROR_OUT_OF_DEVICE_MEMORY`, the
function still returns the handle pair with no error, abort or diagnostic. -/
theorem C3_counterexample :
    createDescriptorSet 7 8 VkResult.errorOutOfDeviceMemory
        VkResult.errorOutOfDeviceMemory = Except.ok (7, 8) := rfl

/-- C3, amended: Vulkan calls outside the presentation step whose results the
code checks are treated as fatal on non-success — `createBuffer` throws a
descriptive error when `vkCreateBuffer` or `vkAllocateMemory` fails — but some
calls' results are never checked: `createBuffer` ignores the result of
`vkBindBufferMemory`, and `createDescriptorSet` ignores the results of both
`vkCreateDescriptorPool` and `vkAllocateDescriptorSets`, returning success
whatever those calls report. -/
theorem C3_checked_calls_fatal (buffer memory pool descSet : Nat)
    (r1 r2 r3 p1 p2 : VkResult) :
    (r1 ≠ VkResult.success →
      createBuffer buffer memory r1 r2 r3 =
        Except.error "failed to create vertex buffer!")
    ∧ (r1 = VkResult.success → r2 ≠ VkResult.success →
      createBuffer buffer memory r1 r2 r3 =
        Except.error "failed to allocate vertex buffer memory!")
    ∧ (r1 = VkResult.success → r2 = VkResult.success →
      createBuffer buffer memory r1 r2 r3 = Except.ok (buffer, memory))
    ∧ createDescriptorSet pool descSet p1 p2 = Except.ok (pool, descSet) := by
  refine ⟨?_, ?_, ?_, rfl⟩
  · intro h
    unfold createBuffer
    rw [if_pos h]
  · intro h1 h2
    unfold createBuffer
    rw [if_neg (by simp [h1]), if_pos h2]
  · intro h1 h2
    unfold createBuffer
    rw [if_neg (by simp [h1]), if_neg (by simp [h2])]

/-- Witness for `C3_checked_calls_fatal`: the two checked failures of
`createBuffer` throw; a failing `vkBindBufferMemory` result is ignored and the
function still succeeds. -/
theorem C3_checked_calls_fatal_witness :
    createBuffer 3 4 VkResult.errorDeviceLost VkResult.success VkResult.success
      = Except.error "failed to create vertex buffer!"
    ∧ createBuffer 3 4 VkResult.success VkResult.errorDeviceLost VkResult.success
      = Except.error "failed to allocate vertex buffer memory!"
    ∧ createBuffer 3 4 VkResult.success VkResult.success VkResult.errorDeviceLost
      = Except.ok (3, 4) :=
  ⟨(C3_checked_calls_fatal 3 4 0 0 VkResult.errorDeviceLost VkResult.success
      VkResult.success VkResult.success VkResult.success).1 (by decide),
   (C3_checked_calls_fatal 3 4 0 0 VkResult.success VkResult.errorDeviceLost
      VkResult.success VkResult.success VkResult.success).2.1 rfl (by decide),
   (C3_checked_calls_fatal 3 4 0 0 VkResult.success VkResult.success
      VkResult.errorDeviceLost VkResult.success VkResult.success).2.2.1 rfl rfl⟩

/-! ### C2: acquire error handling -/

/-- C2, counterexample: the claim that the out-of-date signal from the
swapchain-image acquire call "does not abort and leads to recreation" fails on
the code: `main` throws on ANY non-success result of `vkAcquireNextImageKHR`
(main.cpp:1847-1850), including `VK_ERROR_OUT_OF_DATE_KHR`.  At a concrete
iteration whose acquire reports out-of-date, the outcome is the fatal abort
and the trace contains no recreation (destroy/create) event at all. -/
theorem C2_counterexample :
    (frameBody envAcquireOutOfDate sampleState).2.2 =
        Outcome.fatal "vkAcquireNextImageKHR failed"
    ∧ ((frameBody envAcquireOutOfDate sampleState).2.1.all
        (fun e => !(isDestroyEvent e || isCreateEvent e))) = true := by
  constructor
  · rfl
  · rfl

/-- C2, amended: for every loop iteration, ANY non-success result of the
acquire call — the out-of-date signal included — aborts the process with the
acquire diagnostic, leaves the state unchanged, and triggers no recreation
(recreation is reached only through the present call's out-of-date result). -/
theorem C2_acquire_nonsuccess_fatal (env : FrameEnv) (s : LoopState)
    (h : env.acquireResult ≠ VkResult.success) :
    (frameBody env s).2.2 = Outcome.fatal "vkAcquireNextImageKHR failed"
    ∧ (frameBody env s).1 = s
    ∧ (frameBody env s).2.1 =
        [Event.resetFences, Event.acquire env.acquireResult env.acquireIndex] := by
  rw [frameBody_acquire_fail env s h]
  exact ⟨rfl, rfl, rfl⟩

/-- Witness for `C2_acquire_nonsuccess_fatal` at an iteration whose acquire
reports `VK_ERROR_DEVICE_LOST`. -/
theorem C2_acquire_nonsuccess_fatal_witness :
    (frameBody envAcquireLost sampleState).2.2 =
      Outcome.fatal "vkAcquireNextImageKHR failed" :=
  (C2_acquire_nonsuccess_fatal envAcquireLost sampleState (by decide)).1

/-! ### C4: present error handling -/

/-- C4: the present call's out-of-date result is the only present failure
handled by swapchain recreation — `presentQueue` signals recreation (returns
`false`) exactly on `VK_ERROR_OUT_OF_DATE_KHR`, raises the present error on
every other non-success result, and on success the iteration completes
normally with an unchanged state and no destroy or create event; when the
out-of-date iteration's recreation calls succeed, the iteration also completes
normally after destroying the old swapchain. -/
theorem C4_present_error_handling (swapchain nextImage : Nat) (r : VkResult)
    (env : FrameEnv) (s : LoopState) :
    (presentQueue swapchain nextImage VkResult.errorOutOfDateKHR).2 = Except.ok false
    ∧ (r ≠ VkResult.success → r ≠ VkResult.errorOutOfDateKHR →
        (presentQueue swapchain nextImage r).2 =
          Except.error "failed to present swap chain image!")
    ∧ (presentQueue swapchain nextImage VkResult.success).2 = Except.ok true
    ∧ (env.acquireResult = VkResult.success → env.submitResult = VkResult.success →
        env.queueWaitIdleResult = VkResult.success → env.presentResult = VkResult.success →
        (frameBody env s).2.2 = Outcome.ok
        ∧ (frameBody env s).1 = s
        ∧ ((frameBody env s).2.1.all
            (fun e => !(isDestroyEvent e || isCreateEvent e))) = true)
    ∧ (recreationHappens env = true →
        (frameBody env s).2.2 = Outcome.ok
        ∧ Event.destroySwapchain s.swapchain ∈ (frameBody env s).2.1) := by
  refine ⟨rfl, ?_, rfl, ?_, ?_⟩
  · intro hne hnood
    simp [presentQueue, hne, hnood]
  · intro h1 h2 h3 h4
    rw [frameBody_present_ok env s h1 h2 h3 h4]
    refine ⟨rfl, rfl, ?_⟩
    simp [isDestroyEvent, isCreateEvent]
  · intro hrec
    simp only [recreationHappens, Bool.and_eq_true, beq_iff_eq] at hrec
    obtain ⟨⟨⟨⟨⟨h1, h2⟩, h3⟩, h4⟩, hc⟩, hg⟩ := hrec
    rw [frameBody_out_of_date env s h1 h2 h3 h4 hc hg, recreate_ok env s hc hg]
    refine ⟨rfl, ?_⟩
    simp [List.mem_append]

/-- Witness for `C4_present_error_handling`: the non-out-of-date present
failure raises the present error, a successful present completes the
iteration without recreation, and a completed recreation iteration destroys
the old swapchain. -/
theorem C4_present_error_handling_witness :
    (presentQueue 5 0 VkResult.errorDeviceLost).2 =
        Except.error "failed to present swap chain image!"
    ∧ (frameBody envPresentOk sampleState).2.2 = Outcome.ok
    ∧ Event.destroySwapchain sampleState.swapchain ∈
        (frameBody envOutOfDate sampleState).2.1 :=
  ⟨(C4_present_error_handling 5 0 VkResult.errorDeviceLost envPresentOk
      sampleState).2.1 (by decide) (by decide),
   ((C4_present_error_handling 5 0 VkResult.errorDeviceLost envPresentOk
      sampleState).2.2.2.1 rfl rfl rfl rfl).1,
   ((C4_present_error_handling 5 0 VkResult.errorDeviceLost envOutOfDate
      sampleState).2.2.2.2 (by decide)).2⟩

/-! ### C6: per-frame indexing and synchronization -/

/-- C6: in every iteration whose acquire returns image index `i` (and whose
submission calls succeed), recording targets exactly `frameBuffers[i]` and
`commandBuffers[i]`; the submission waits on the image-available semaphore at
the color-attachment-output stage and signals the render-finished semaphore;
the presentation waits on the render-finished semaphore and requests image
index `i`. -/
theorem C6_frame_indexing_and_sync (env : FrameEnv) (s : LoopState)
    (h1 : env.acquireResult = VkResult.success)
    (h2 : env.submitResult = VkResult.success)
    (h3 : env.queueWaitIdleResult = VkResult.success) :
    ∃ post,
      (frameBody env s).2.1 =
        [Event.resetFences, Event.acquire VkResult.success env.acquireIndex,
         Event.record (s.frameBuffers.getD env.acquireIndex 0)
           (s.commandBuffers.getD env.acquireIndex 0),
         Event.submit
           { commandBuffers := [s.commandBuffers.getD env.acquireIndex 0]
             waitSemaphores := [imageAvailableSemaphore]
             waitDstStageMask := [PipelineStage.colorAttachmentOutput]
             signalSemaphores := [renderFinishedSemaphore] },
         Event.queueWaitIdle,
         Event.present
           { waitSemaphores := [renderFinishedSemaphore]
             swapchains := [s.swapchain]
             imageIndices := [env.acquireIndex] }] ++ post := by
  by_cases hp : env.presentResult = VkResult.success
  · refine ⟨[Event.waitForFences,
      Event.resetCommandBuffer (s.commandBuffers.getD env.acquireIndex 0)], ?_⟩
    rw [frameBody_present_ok env s h1 h2 h3 hp]
    rfl
  · by_cases hq : env.presentResult = VkResult.errorOutOfDateKHR
    · rw [frameBody_ood_split env s h1 h2 h3 hq]
      exact ⟨_, rfl⟩
    · refine ⟨[], ?_⟩
      rw [frameBody_present_other_fail env s h1 h2 h3 hp hq]
      rfl

/-- Witness for `C6_frame_indexing_and_sync` at the spec's scenario: acquire
returns index 2 of the 3-image `sampleState`; recording targets
`frameBuffers[2] = 12` and `commandBuffers[2] = 42`, and presentation requests
image 2. -/
theorem C6_frame_indexing_and_sync_witness :
    ∃ post,
      (frameBody { envPresentOk with acquireIndex := 2 } sampleState).2.1 =
        [Event.resetFences, Event.acquire VkResult.success 2,
         Event.record 12 42,
         Event.submit
           { commandBuffers := [42]
             waitSemaphores := [imageAvailableSemaphore]
             waitDstStageMask := [PipelineStage.colorAttachmentOutput]
             signalSemaphores := [renderFinishedSemaphore] },
         Event.queueWaitIdle,
         Event.present
           { waitSemaphores := [renderFinishedSemaphore]
             swapchains := [5]
             imageIndices := [2] }] ++ post :=
  C6_frame_indexing_and_sync { envPresentOk with acquireIndex := 2 } sampleState
    rfl rfl rfl

/-! ### C1: framebuffer and image-view counts after recreation -/

/-- C1: the invariant fails on the code.  At a recreation (triggered by an
out-of-date present) whose new swapchain has 2 images while the startup
swapchain had 3, the iteration completes normally, `chainImageViews` tracks
the new count (2, since `makeChainImageViews` resizes it), but the
`frameBuffers` vector — which `makeFramebuffers` writes into without ever
resizing (main.cpp:1108-1125, 1881) — keeps its startup length 3: the number
of framebuffers does not equal the new swapchain's image count.  (Its third
slot still holds the destroyed framebuffer handle 12, which the exit path
destroys a second time; had the count grown instead, `makeFramebuffers` would
write `frameBuffers[i]` out of bounds.) -/
theorem C1_framebuffer_count_not_updated :
    (frameBody envShrinkRecreate sampleState).2.2 = Outcome.ok
    ∧ (frameBody envShrinkRecreate sampleState).1.swapchainImageCount = 2
    ∧ (frameBody envShrinkRecreate sampleState).1.chainImageViews.length = 2
    ∧ (frameBody envShrinkRecreate sampleState).1.frameBuffers.length = 3
    ∧ (frameBody envShrinkRecreate sampleState).1.frameBuffers.getD 2 0 = 12
    ∧ Event.destroyFramebuffer 12 ∈ (frameBody envShrinkRecreate sampleState).2.1 := by
  refine ⟨rfl, rfl, rfl, rfl, rfl, ?_⟩
  decide

/-! ### List helpers -/

/-- Reading an untouched index of a `set` list. -/
theorem getD_set_ne : ∀ (l : List Nat) (i j v : Nat), i ≠ j →
    (l.set i v).getD j 0 = l.getD j 0
  | [], _, _, _, _ => rfl
  | _ :: _, 0, 0, _, h => absurd rfl h
  | _ :: _, 0, _ + 1, _, _ => rfl
  | _ :: _, _ + 1, 0, _, _ => rfl
  | _ :: as, i + 1, j + 1, v, h =>
      getD_set_ne as i j v (fun hij => h (by rw [hij]))

/-- Reading the written index of a `set` list. -/
theorem getD_set_self : ∀ (l : List Nat) (i v : Nat), i < l.length →
    (l.set i v).getD i 0 = v
  | [], i, _, h => absurd h (by simp)
  | _ :: _, 0, _, _ => rfl
  | _ :: as, i + 1, v, h => getD_set_self as i v (by simpa using h)

/-- Members of a `set` list are the written value or old members. -/
theorem mem_set : ∀ (l : List Nat) (i v x : Nat), x ∈ l.set i v → x = v ∨ x ∈ l
  | [], _, _, _, h => Or.inr h
  | a :: as, 0, v, x, h => by
      rcases List.mem_cons.mp h with h | h
      · exact Or.inl h
      · exact Or.inr (List.mem_cons_of_mem a h)
  | a :: as, i + 1, v, x, h => by
      rcases List.mem_cons.mp h with h | h
      · exact Or.inr (h ▸ List.mem_cons_self a as)
      · rcases mem_set as i v x h with h | h
        · exact Or.inl h
        · exact Or.inr (List.mem_cons_of_mem a h)

/-- An in-bounds `getD` is a member. -/
theorem getD_mem : ∀ (l : List Nat) (j : Nat), j < l.length → l.getD j 0 ∈ l
  | [], j, h => absurd h (by simp)
  | a :: as, 0, _ => List.mem_cons_self a as
  | a :: as, j + 1, h =>
      List.mem_cons_of_mem a (getD_mem as j (by simpa using h))

/-! ### Lemmas about makeFramebuffersLoop -/

/-- The framebuffer vector's length never changes: `makeFramebuffers` writes
in place and never resizes. -/
theorem mkfb_length : ∀ (k i : Nat) (fbs : List Nat) (nid : Nat),
    (makeFramebuffersLoop k i fbs nid).1.length = fbs.length
  | 0, _, _, _ => rfl
  | k + 1, i, fbs, nid => by
      simp only [makeFramebuffersLoop]
      rw [mkfb_length k (i + 1) (fbs.set i nid) (nid + 1), List.length_set]

/-- The handle counter advances by exactly the number of created framebuffers. -/
theorem mkfb_counter : ∀ (k i : Nat) (fbs : List Nat) (nid : Nat),
    (makeFramebuffersLoop k i fbs nid).2.1 = nid + k
  | 0, _, _, nid => by simp [makeFramebuffersLoop]
  | k + 1, i, fbs, nid => by
      simp only [makeFramebuffersLoop]
      rw [mkfb_counter k (i + 1) (fbs.set i nid) (nid + 1)]
      omega

/-- Every event emitted by the framebuffer-creation loop is a
`createFramebuffer` with a fresh handle. -/
theorem mkfb_trace_mem : ∀ (k i : Nat) (fbs : List Nat) (nid : Nat),
    ∀ e ∈ (makeFramebuffersLoop k i fbs nid).2.2,
      ∃ fb, nid ≤ fb ∧ fb < nid + k ∧ e = Event.createFramebuffer fb
  | 0, _, _, _ => by simp [makeFramebuffersLoop]
  | k + 1, i, fbs, nid => by
      intro e he
      simp only [makeFramebuffersLoop, List.mem_cons] at he
      rcases he with he | he
      · exact ⟨nid, Nat.le_refl nid, by omega, he⟩
      · obtain ⟨fb, hle, hlt, hfb⟩ :=
          mkfb_trace_mem k (i + 1) (fbs.set i nid) (nid + 1) e he
        exact ⟨fb, by omega, by omega, hfb⟩

/-- Indices below the loop's starting index are untouched. -/
theorem mkfb_getD_before : ∀ (k i : Nat) (fbs : List Nat) (nid j : Nat), j < i →
    (makeFramebuffersLoop k i fbs nid).1.getD j 0 = fbs.getD j 0
  | 0, _, _, _, _, _ => rfl
  | k + 1, i, fbs, nid, j, hj => by
      simp only [makeFramebuffersLoop]
      rw [mkfb_getD_before k (i + 1) (fbs.set i nid) (nid + 1) j (by omega),
        getD_set_ne fbs i j nid (by omega)]

/-- Indices at or beyond the end of the iteration range are untouched. -/
theorem mkfb_getD_after : ∀ (k i : Nat) (fbs : List Nat) (nid j : Nat), i + k ≤ j →
    (makeFramebuffersLoop k i fbs nid).1.getD j 0 = fbs.getD j 0
  | 0, _, _, _, _, _ => rfl
  | k + 1, i, fbs, nid, j, hj => by
      simp only [makeFramebuffersLoop]
      rw [mkfb_getD_after k (i + 1) (fbs.set i nid) (nid + 1) j (by omega),
        getD_set_ne fbs i j nid (by omega)]

/-- In-bounds indices inside the iteration range receive consecutive fresh
handles. -/
theorem mkfb_getD_in : ∀ (k i : Nat) (fbs : List Nat) (nid j : Nat),
    i ≤ j → j < i + k → j < fbs.length →
    (makeFramebuffersLoop k i fbs nid).1.getD j 0 = nid + (j - i)
  | 0, i, _, _, j, _, h2, _ => by omega
  | k + 1, i, fbs, nid, j, h1, h2, h3 => by
      simp only [makeFramebuffersLoop]
      by_cases hji : j = i
      · subst hji
        rw [mkfb_getD_before k (j + 1) (fbs.set j nid) (nid + 1) j (by omega),
          getD_set_self fbs j nid h3]
        omega
      · rw [mkfb_getD_in k (i + 1) (fbs.set i nid) (nid + 1) j (by omega) (by omega)
            (by rw [List.length_set]; exact h3)]
        omega

/-- Members of the updated framebuffer vector are either old members or fresh
handles from the counter range. -/
theorem mkfb_mem : ∀ (k i : Nat) (fbs : List Nat) (nid x : Nat),
    x ∈ (makeFramebuffersLoop k i fbs nid).1 →
    x ∈ fbs ∨ (nid ≤ x ∧ x < nid + k)
  | 0, _, _, _, _, h => Or.inl h
  | k + 1, i, fbs, nid, x, h => by
      simp only [makeFramebuffersLoop] at h
      rcases mkfb_mem k (i + 1) (fbs.set i nid) (nid + 1) x h with h | h
      · rcases mem_set fbs i nid x h with h | h
        · exact Or.inr ⟨by omega, by omega⟩
        · exact Or.inl h
      · exact Or.inr ⟨by omega, by omega⟩

/-! ### C7: queue-idle wait after every submission -/

/-- Whether an event is a queue submission. -/
def isSubmit : Event → Bool
  | Event.submit _ => true
  | _ => false

/-- When submission itself fails, the iteration throws before any submit
event: the trace stops after the record. -/
theorem frameBody_submit_fail (env : FrameEnv) (s : LoopState)
    (h1 : env.acquireResult = VkResult.success)
    (h2 : env.submitResult ≠ VkResult.success) :
    frameBody env s =
      (s,
       [Event.resetFences, Event.acquire VkResult.success env.acquireIndex,
        Event.record (s.frameBuffers.getD env.acquireIndex 0)
          (s.commandBuffers.getD env.acquireIndex 0)],
       Outcome.fatal "failed to submit command buffer!") := by
  simp [frameBody, submitCommandBuffer, h1, h2]

/-- When the queue-idle wait after submission fails, the iteration throws
right after the submit/wait pair. -/
theorem frameBody_waitIdle_fail (env : FrameEnv) (s : LoopState)
    (h1 : env.acquireResult = VkResult.success)
    (h2 : env.submitResult = VkResult.success)
    (h3 : env.queueWaitIdleResult ≠ VkResult.success) :
    frameBody env s =
      (s,
       [Event.resetFences, Event.acquire VkResult.success env.acquireIndex,
        Event.record (s.frameBuffers.getD env.acquireIndex 0)
          (s.commandBuffers.getD env.acquireIndex 0),
        Event.submit (submitInfoFor (s.commandBuffers.getD env.acquireIndex 0)),
        Event.queueWaitIdle],
       Outcome.fatal "failed to wait for the graphics queue to be idle") := by
  simp [frameBody, submitCommandBuffer, h1, h2, h3]

/-- Splitting the trailing-flag computation across a concatenation. -/
theorem trailFlag_append : ∀ (t1 t2 : List Event) (b : Bool),
    trailFlag b (t1 ++ t2) = trailFlag (trailFlag b t1) t2
  | [], _, _ => rfl
  | e :: rest, t2, b => by
      cases e <;> simp only [List.cons_append, trailFlag] <;>
        exact trailFlag_append rest t2 _

/-- Splitting the submit-awaited scanner across a concatenation. -/
theorem submitsAwaitedAux_append : ∀ (t1 t2 : List Event) (b : Bool),
    submitsAwaitedAux b t1 = true → submitsAwaitedAux (trailFlag b t1) t2 = true →
    submitsAwaitedAux b (t1 ++ t2) = true
  | [], _, _, _, h2 => h2
  | e :: rest, t2, b, h1, h2 => by
      cases b with
      | true =>
          cases e with
          | queueWaitIdle =>
              exact submitsAwaitedAux_append rest t2 false h1 h2
          | submit info => exact absurd h1 (by simp [submitsAwaitedAux])
          | _ => exact absurd h1 (by simp [submitsAwaitedAux])
      | false =>
          cases e with
          | submit info => exact submitsAwaitedAux_append rest t2 true h1 h2
          | _ => exact submitsAwaitedAux_append rest t2 false h1 h2

/-- A trace without submit events passes the scanner from a clear flag. -/
theorem noSubmit_awaited : ∀ t : List Event,
    (∀ e ∈ t, isSubmit e = false) → submitsAwaitedAux false t = true
  | [], _ => rfl
  | e :: rest, h => by
      have hrest := noSubmit_awaited rest (fun x hx => h x (List.mem_cons_of_mem e hx))
      have he := h e (List.mem_cons_self e rest)
      cases e with
      | submit info => exact absurd he (by simp [isSubmit])
      | _ => exact hrest

/-- A trace without submit events leaves the scanner flag clear. -/
theorem noSubmit_trail : ∀ t : List Event,
    (∀ e ∈ t, isSubmit e = false) → trailFlag false t = false
  | [], _ => rfl
  | e :: rest, h => by
      have hrest := noSubmit_trail rest (fun x hx => h x (List.mem_cons_of_mem e hx))
      have he := h e (List.mem_cons_self e rest)
      cases e with
      | submit info => exact absurd he (by simp [isSubmit])
      | _ => exact hrest

/-- The recreation block emits no submit event. -/
theorem recreate_no_submit (env : FrameEnv) (s : LoopState) :
    ∀ e ∈ (recreate env s).2.1, isSubmit e = false := by
  intro e he
  cases e
  case submit info =>
    exfalso
    cases hc : env.createSwapChainOk with
    | false => simp [recreate, hc] at he
    | true =>
        cases hg : env.getImagesOk with
        | false => simp [recreate, hc, hg] at he
        | true =>
            rw [recreate_ok env s hc hg] at he
            simp only [List.append_assoc, List.mem_append, List.mem_cons,
              List.mem_map, List.mem_singleton, List.not_mem_nil, or_false,
              reduceCtorEq, exists_false, false_or, or_self, and_false,
              false_and, exists_const] at he
            obtain ⟨fb, _, _, hfb⟩ := mkfb_trace_mem _ _ _ _ _ he
            exact Event.noConfusion hfb
  all_goals rfl

/-- One loop iteration always pairs each submit with an immediately following
queue-idle wait, and its trace never ends on a bare submit. -/
theorem frameBody_submitsAwaited (env : FrameEnv) (s : LoopState) :
    submitsAwaitedAux false (frameBody env s).2.1 = true
    ∧ trailFlag false (frameBody env s).2.1 = false := by
  by_cases h1 : env.acquireResult = VkResult.success
  · by_cases h2 : env.submitResult = VkResult.success
    · by_cases h3 : env.queueWaitIdleResult = VkResult.success
      · by_cases h4 : env.presentResult = VkResult.success
        · rw [frameBody_present_ok env s h1 h2 h3 h4]
          exact ⟨rfl, rfl⟩
        · by_cases h5 : env.presentResult = VkResult.errorOutOfDateKHR
          · rw [frameBody_ood_split env s h1 h2 h3 h5]
            have hnos := recreate_no_submit env s
            constructor
            · refine submitsAwaitedAux_append _ _ false ?_ ?_
              · refine submitsAwaitedAux_append _ _ false rfl ?_
                show submitsAwaitedAux false ((recreate env s).2.1) = true
                exact noSubmit_awaited _ hnos
              · rw [trailFlag_append]
                show submitsAwaitedAux (trailFlag false ((recreate env s).2.1)) _ = true
                rw [noSubmit_trail _ hnos]
                cases hr : (recreate env s).2.2 <;> rfl
            · rw [trailFlag_append, trailFlag_append]
              show trailFlag (trailFlag false ((recreate env s).2.1)) _ = false
              rw [noSubmit_trail _ hnos]
              cases hr : (recreate env s).2.2 <;> rfl
          · rw [frameBody_present_other_fail env s h1 h2 h3 h4 h5]
            exact ⟨rfl, rfl⟩
      · rw [frameBody_waitIdle_fail env s h1 h2 h3]
        exact ⟨rfl, rfl⟩
    · rw [frameBody_submit_fail env s h1 h2]
      exact ⟨rfl, rfl⟩
  · rw [frameBody_acquire_fail env s h1]
    exact ⟨rfl, rfl⟩

/-- C7: after every command-buffer submission in the frame loop, the program
blocks on `vkQueueWaitIdle` before proceeding — in every run of the loop,
every submit event is immediately followed by a queue-idle wait (so at most
one frame's command buffer is ever in flight). -/
theorem C7_submit_then_queue_idle (envs : List FrameEnv) (s : LoopState) :
    submitsAwaited (runLoop envs s).2.1 = true := by
  induction envs generalizing s with
  | nil => rfl
  | cons env rest ih =>
      show submitsAwaitedAux false _ = true
      simp only [runLoop]
      cases ho : (frameBody env s).2.2 with
      | fatal msg =>
          simp only [ho]
          exact (frameBody_submitsAwaited env s).1
      | ok =>
          simp only [ho]
          refine submitsAwaitedAux_append _ _ false
            (frameBody_submitsAwaited env s).1 ?_
          rw [(frameBody_submitsAwaited env s).2]
          exact ih (frameBody env s).1

/-! ### C5: recreation ordering and record safety -/

/-- Whether an event is a command-buffer recording. -/
def isRecord : Event → Bool
  | Event.record _ _ => true
  | _ => false

/-- Whether an event destroys a framebuffer. -/
def isFbDestroy : Event → Bool
  | Event.destroyFramebuffer _ => true
  | _ => false

/-- Membership not holding in a list makes `contains` false. -/
theorem contains_eq_false_of_not_mem : ∀ (l : List Nat) (x : Nat), x ∉ l →
    l.contains x = false
  | [], _, _ => rfl
  | a :: as, x, h => by
      have h1 : (x == a) = false := by
        simp only [beq_eq_false_iff_ne, ne_eq]
        intro hx
        exact h (hx ▸ List.mem_cons_self a as)
      have h2 := contains_eq_false_of_not_mem as x
        (fun hx => h (List.mem_cons_of_mem a hx))
      simp only [List.contains, List.elem] at h2 ⊢
      rw [h1, h2]

/-- Splitting the destroyed-handle accumulation across a concatenation. -/
theorem destroyedIn_append : ∀ t1 t2 : List Event,
    destroyedIn (t1 ++ t2) = destroyedIn t1 ++ destroyedIn t2
  | [], _ => rfl
  | e :: rest, t2 => by
      cases e <;> simp [destroyedIn, destroyedIn_append rest t2]

/-- A trace without framebuffer-destroy events destroys nothing. -/
theorem destroyedIn_eq_nil : ∀ t : List Event,
    (∀ e ∈ t, isFbDestroy e = false) → destroyedIn t = []
  | [], _ => rfl
  | e :: rest, h => by
      have hrest := destroyedIn_eq_nil rest (fun x hx => h x (List.mem_cons_of_mem e hx))
      have he := h e (List.mem_cons_self e rest)
      cases e with
      | destroyFramebuffer fb => exact absurd he (by simp [isFbDestroy])
      | _ => exact hrest

/-- Splitting the record-safety scanner across a concatenation. -/
theorem recordSafeFrom_append : ∀ (t1 t2 : List Event) (d : List Nat),
    recordSafeFrom d (t1 ++ t2) =
      (recordSafeFrom d t1 && recordSafeFrom (d ++ destroyedIn t1) t2)
  | [], t2, d => by simp [recordSafeFrom, destroyedIn]
  | e :: rest, t2, d => by
      cases e <;>
        simp [recordSafeFrom, destroyedIn, recordSafeFrom_append rest t2,
          List.append_assoc, Bool.and_assoc]

/-- A trace without record events is record-safe from any starting set. -/
theorem noRecord_safe : ∀ (t : List Event) (d : List Nat),
    (∀ e ∈ t, isRecord e = false) → recordSafeFrom d t = true
  | [], _, _ => rfl
  | e :: rest, d, h => by
      have he := h e (List.mem_cons_self e rest)
      have hr := fun d' => noRecord_safe rest d'
        (fun x hx => h x (List.mem_cons_of_mem e hx))
      cases e with
      | record fb cb => exact absurd he (by simp [isRecord])
      | destroyFramebuffer fb => exact hr (d ++ [fb])
      | _ => exact hr d

/-- The recreation block records no command buffer. -/
theorem recreate_no_record (env : FrameEnv) (s : LoopState) :
    ∀ e ∈ (recreate env s).2.1, isRecord e = false := by
  intro e he
  cases e
  case record fb cb =>
    exfalso
    cases hc : env.createSwapChainOk with
    | false => simp [recreate, hc] at he
    | true =>
        cases hg : env.getImagesOk with
        | false => simp [recreate, hc, hg] at he
        | true =>
            rw [recreate_ok env s hc hg] at he
            simp only [List.append_assoc, List.mem_append, List.mem_cons,
              List.mem_map, List.mem_singleton, List.not_mem_nil, or_false,
              reduceCtorEq, exists_false, false_or, or_self, and_false,
              false_and, exists_const] at he
            obtain ⟨fb2, _, _, hfb⟩ := mkfb_trace_mem _ _ _ _ _ he
            exact Event.noConfusion hfb
  all_goals rfl

/-- A create event is not a destroy, record or framebuffer-destroy event. -/
theorem create_event_kinds (e : Event) (h : isCreateEvent e = true) :
    isDestroyEvent e = false ∧ isRecord e = false ∧ isFbDestroy e = false := by
  cases e <;> simp [isCreateEvent] at h ⊢ <;>
    exact ⟨rfl, rfl, rfl⟩

/-- The recreation trace decomposes as the device-idle wait, then exactly the
destroy events of the old framebuffers, old chain image views, old swapchain
and old depth resources, then a remainder consisting purely of create
events. -/
theorem recreate_trace_split (env : FrameEnv) (s : LoopState) :
    ∃ rest,
      (recreate env s).2.1 =
        Event.deviceWaitIdle ::
          (s.frameBuffers.map Event.destroyFramebuffer
            ++ s.chainImageViews.map Event.destroyImageView
            ++ [Event.destroySwapchain s.swapchain, Event.destroyDepthView,
                Event.destroyDepthImage, Event.freeDepthMemory])
          ++ rest
      ∧ ∀ e ∈ rest, isCreateEvent e = true := by
  cases hc : env.createSwapChainOk with
  | false =>
      refine ⟨[Event.createDepthBuffer s.nextId], ?_, ?_⟩
      · simp [recreate, hc]
      · intro e he; simp only [List.mem_singleton] at he; subst he; rfl
  | true =>
      cases hg : env.getImagesOk with
      | false =>
          refine ⟨[Event.createDepthBuffer s.nextId,
            Event.createSwapchain (s.nextId + 1)], ?_, ?_⟩
          · simp [recreate, hc, hg]
          · intro e he
            simp only [List.mem_cons, List.not_mem_nil, or_false] at he
            rcases he with he | he <;> subst he <;> rfl
      | true =>
          refine ⟨[Event.createDepthBuffer s.nextId,
              Event.createSwapchain (s.nextId + 1),
              Event.getSwapchainImages env.newImageCount]
              ++ ((List.range env.newImageCount).map
                  (fun j => s.nextId + 1 + 1 + env.newImageCount + j)).map
                  Event.createImageView
              ++ (makeFramebuffersLoop env.newImageCount 0 s.frameBuffers
                  (s.nextId + 1 + 1 + env.newImageCount + env.newImageCount)).2.2,
            ?_, ?_⟩
          · rw [recreate_ok env s hc hg]
            simp [List.append_assoc]
          · intro e he
            rcases List.mem_append.mp he with h | h
            · rcases List.mem_append.mp h with h | h
              · simp only [List.mem_cons, List.not_mem_nil, or_false] at h
                rcases h with h | h | h <;> subst h <;> rfl
              · obtain ⟨x, _, hx⟩ := List.mem_map.mp h
                subst hx; rfl
            · obtain ⟨fb, _, _, hfb⟩ := mkfb_trace_mem _ _ _ _ _ h
              subst hfb; rfl

/-- The recreation succeeds exactly when both of its fallible calls do. -/
theorem recreate_ok_iff (env : FrameEnv) (s : LoopState) :
    (recreate env s).2.2 = Outcome.ok ↔
      env.createSwapChainOk = true ∧ env.getImagesOk = true := by
  cases hc : env.createSwapChainOk <;> cases hg : env.getImagesOk <;>
    simp [recreate, hc, hg]

/-- Recreation never changes the framebuffer vector's length. -/
theorem recreate_frameBuffers_length (env : FrameEnv) (s : LoopState) :
    (recreate env s).1.frameBuffers.length = s.frameBuffers.length := by
  cases hc : env.createSwapChainOk with
  | false => simp [recreate, hc]
  | true =>
      cases hg : env.getImagesOk with
      | false => simp [recreate, hc, hg]
      | true => rw [recreate_ok env s hc hg]; exact mkfb_length _ _ _ _

/-- Destroying a list of framebuffers accumulates exactly that list. -/
theorem destroyedIn_map_fb : ∀ l : List Nat,
    destroyedIn (l.map Event.destroyFramebuffer) = l
  | [] => rfl
  | fb :: rest => by
      simp only [List.map_cons, destroyedIn, destroyedIn_map_fb rest]

/-- Destroying image views accumulates no framebuffer handle. -/
theorem destroyedIn_map_view : ∀ l : List Nat,
    destroyedIn (l.map Event.destroyImageView) = []
  | [] => rfl
  | v :: rest => by
      simp only [List.map_cons, destroyedIn, destroyedIn_map_view rest]

/-- The frame body never changes the framebuffer vector's length. -/
theorem frameBody_frameBuffers_length (env : FrameEnv) (s : LoopState) :
    (frameBody env s).1.frameBuffers.length = s.frameBuffers.length := by
  by_cases h1 : env.acquireResult = VkResult.success
  · by_cases h2 : env.submitResult = VkResult.success
    · by_cases h3 : env.queueWaitIdleResult = VkResult.success
      · by_cases h4 : env.presentResult = VkResult.success
        · rw [frameBody_present_ok env s h1 h2 h3 h4]
        · by_cases h5 : env.presentResult = VkResult.errorOutOfDateKHR
          · rw [frameBody_ood_split env s h1 h2 h3 h5]
            exact recreate_frameBuffers_length env s
          · rw [frameBody_present_other_fail env s h1 h2 h3 h4 h5]
      · rw [frameBody_waitIdle_fail env s h1 h2 h3]
    · rw [frameBody_submit_fail env s h1 h2]
  · rw [frameBody_acquire_fail env s h1]

/-- On normal continuation, the frame body's image count follows
`nextCount`. -/
theorem frameBody_count (env : FrameEnv) (s : LoopState)
    (ho : (frameBody env s).2.2 = Outcome.ok) :
    (frameBody env s).1.swapchainImageCount =
      nextCount env s.swapchainImageCount := by
  by_cases h1 : env.acquireResult = VkResult.success
  · by_cases h2 : env.submitResult = VkResult.success
    · by_cases h3 : env.queueWaitIdleResult = VkResult.success
      · by_cases h4 : env.presentResult = VkResult.success
        · rw [frameBody_present_ok env s h1 h2 h3 h4]
          have hrec : recreationHappens env = false := by
            simp [recreationHappens, h4]
          rw [nextCount, hrec]
          simp
        · by_cases h5 : env.presentResult = VkResult.errorOutOfDateKHR
          · have hroz : (recreate env s).2.2 = Outcome.ok := by
              rw [frameBody_ood_split env s h1 h2 h3 h5] at ho
              exact ho
            obtain ⟨hc, hg⟩ := (recreate_ok_iff env s).mp hroz
            rw [frameBody_ood_split env s h1 h2 h3 h5, recreate_ok env s hc hg]
            have hrec : recreationHappens env = true := by
              simp [recreationHappens, h1, h2, h3, h5, hc, hg]
            rw [nextCount, hrec]
            simp
          · rw [frameBody_present_other_fail env s h1 h2 h3 h4 h5] at ho
            exact absurd ho (by simp)
      · rw [frameBody_waitIdle_fail env s h1 h2 h3] at ho
        exact absurd ho (by simp)
    · rw [frameBody_submit_fail env s h1 h2] at ho
      exact absurd ho (by simp)
  · rw [frameBody_acquire_fail env s h1] at ho
    exact absurd ho (by simp)

/-- Recreation preserves the state well-formedness, recording the old
framebuffers as destroyed. -/
theorem recreate_preserves_WF (env : FrameEnv) (s : LoopState) (d : List Nat)
    (hwf : StateWF d s) (hcnt : env.newImageCount ≤ s.frameBuffers.length)
    (hc : env.createSwapChainOk = true) (hg : env.getImagesOk = true) :
    StateWF (d ++ s.frameBuffers) (recreate env s).1 := by
  obtain ⟨hwf1, hwf2, hwf3, hwf4⟩ := hwf
  rw [recreate_ok env s hc hg]
  have hctr := mkfb_counter env.newImageCount 0 s.frameBuffers
    (s.nextId + 1 + 1 + env.newImageCount + env.newImageCount)
  have hlen := mkfb_length env.newImageCount 0 s.frameBuffers
    (s.nextId + 1 + 1 + env.newImageCount + env.newImageCount)
  refine ⟨?_, ?_, ?_, ?_⟩
  · intro fb hmem
    show fb < (makeFramebuffersLoop _ _ _ _).2.1
    rw [hctr]
    rcases List.mem_append.mp hmem with h | h
    · have := hwf1 fb h; omega
    · have := hwf2 fb h; omega
  · intro fb hmem
    show fb < (makeFramebuffersLoop _ _ _ _).2.1
    rw [hctr]
    rcases mkfb_mem _ _ _ _ _ hmem with h | ⟨ha, hb⟩
    · have := hwf2 fb h; omega
    · omega
  · intro j hj
    have hj2 : j < env.newImageCount := hj
    have hget := mkfb_getD_in env.newImageCount 0 s.frameBuffers
      (s.nextId + 1 + 1 + env.newImageCount + env.newImageCount) j
      (Nat.zero_le j) (by omega) (by omega)
    show (makeFramebuffersLoop _ _ _ _).1.getD j 0 ∉ d ++ s.frameBuffers
    rw [hget]
    intro hmem
    rcases List.mem_append.mp hmem with h | h
    · have := hwf1 _ h; omega
    · have := hwf2 _ h; omega
  · show env.newImageCount ≤ (makeFramebuffersLoop _ _ _ _).1.length
    rw [hlen]
    exact hcnt

/-- On normal continuation, the frame body preserves well-formedness,
extending the destroyed set by exactly the framebuffer handles its trace
destroys. -/
theorem frameBody_preserves_WF (env : FrameEnv) (s : LoopState) (d : List Nat)
    (hwf : StateWF d s) (hcnt : env.newImageCount ≤ s.frameBuffers.length)
    (ho : (frameBody env s).2.2 = Outcome.ok) :
    StateWF (d ++ destroyedIn (frameBody env s).2.1) (frameBody env s).1 := by
  by_cases h1 : env.acquireResult = VkResult.success
  · by_cases h2 : env.submitResult = VkResult.success
    · by_cases h3 : env.queueWaitIdleResult = VkResult.success
      · by_cases h4 : env.presentResult = VkResult.success
        · rw [frameBody_present_ok env s h1 h2 h3 h4]
          simpa [destroyedIn] using hwf
        · by_cases h5 : env.presentResult = VkResult.errorOutOfDateKHR
          · have hroz : (recreate env s).2.2 = Outcome.ok := by
              rw [frameBody_ood_split env s h1 h2 h3 h5] at ho
              exact ho
            obtain ⟨hc, hg⟩ := (recreate_ok_iff env s).mp hroz
            rw [frameBody_ood_split env s h1 h2 h3 h5]
            have hdest : destroyedIn
                ([Event.resetFences, Event.acquire VkResult.success env.acquireIndex,
                  Event.record (s.frameBuffers.getD env.acquireIndex 0)
                    (s.commandBuffers.getD env.acquireIndex 0),
                  Event.submit (submitInfoFor (s.commandBuffers.getD env.acquireIndex 0)),
                  Event.queueWaitIdle,
                  Event.present (presentInfoFor s.swapchain env.acquireIndex)]
                  ++ (recreate env s).2.1
                  ++ (match (recreate env s).2.2 with
                      | Outcome.ok =>
                          [Event.waitForFences,
                           Event.resetCommandBuffer
                             (s.commandBuffers.getD env.acquireIndex 0)]
                      | Outcome.fatal _ => [])) = s.frameBuffers := by
              obtain ⟨rest, hsplit, hcreate⟩ := recreate_trace_split env s
              have hrestnil : destroyedIn rest = [] :=
                destroyedIn_eq_nil rest
                  (fun e he => (create_event_kinds e (hcreate e he)).2.2)
              rw [destroyedIn_append, destroyedIn_append, hsplit, hroz,
                destroyedIn_append]
              simp only [destroyedIn, destroyedIn_append, destroyedIn_map_fb,
                destroyedIn_map_view, hrestnil]
              simp [destroyedIn]
            rw [hdest]
            exact recreate_preserves_WF env s d hwf hcnt hc hg
          · rw [frameBody_present_other_fail env s h1 h2 h3 h4 h5] at ho
            exact absurd ho (by simp)
      · rw [frameBody_waitIdle_fail env s h1 h2 h3] at ho
        exact absurd ho (by simp)
    · rw [frameBody_submit_fail env s h1 h2] at ho
      exact absurd ho (by simp)
  · rw [frameBody_acquire_fail env s h1] at ho
    exact absurd ho (by simp)

/-- Every frame body trace is record-safe relative to a well-formed destroyed
set, provided the acquired index is below the current image count. -/
theorem frameBody_recordSafe (env : FrameEnv) (s : LoopState) (d : List Nat)
    (hwf : StateWF d s) (hidx : env.acquireIndex < s.swapchainImageCount) :
    recordSafeFrom d (frameBody env s).2.1 = true := by
  have hfb : d.contains (s.frameBuffers.getD env.acquireIndex 0) = false :=
    contains_eq_false_of_not_mem d _ (hwf.2.2.1 env.acquireIndex hidx)
  by_cases h1 : env.acquireResult = VkResult.success
  · by_cases h2 : env.submitResult = VkResult.success
    · by_cases h3 : env.queueWaitIdleResult = VkResult.success
      · by_cases h4 : env.presentResult = VkResult.success
        · rw [frameBody_present_ok env s h1 h2 h3 h4]
          simp only [recordSafeFrom, hfb, Bool.not_false, Bool.true_and]
        · by_cases h5 : env.presentResult = VkResult.errorOutOfDateKHR
          · rw [frameBody_ood_split env s h1 h2 h3 h5]
            simp only [List.cons_append, List.nil_append, List.append_eq,
              recordSafeFrom, hfb, Bool.not_false, Bool.true_and]
            rw [recordSafeFrom_append,
              noRecord_safe _ _ (recreate_no_record env s)]
            simp only [Bool.true_and]
            cases (recreate env s).2.2 <;> rfl
          · rw [frameBody_present_other_fail env s h1 h2 h3 h4 h5]
            simp only [recordSafeFrom, hfb, Bool.not_false, Bool.true_and]
      · rw [frameBody_waitIdle_fail env s h1 h2 h3]
        simp only [recordSafeFrom, hfb, Bool.not_false, Bool.true_and]
    · rw [frameBody_submit_fail env s h1 h2]
      simp only [recordSafeFrom, hfb, Bool.not_false, Bool.true_and]
  · rw [frameBody_acquire_fail env s h1]
    rfl

/-- The frame loop never records a command buffer against a previously
destroyed framebuffer, starting from any well-formed state and destroyed set,
for any valid environment sequence. -/
theorem runLoop_recordSafe : ∀ (envs : List FrameEnv) (s : LoopState) (d : List Nat),
    StateWF d s →
    validEnvs s.frameBuffers.length envs s.swapchainImageCount = true →
    recordSafeFrom d (runLoop envs s).2.1 = true
  | [], _, _, _, _ => rfl
  | env :: rest, s, d, hwf, hv => by
      simp only [validEnvs, Bool.and_eq_true, decide_eq_true_eq] at hv
      obtain ⟨⟨hidx, hcnt⟩, hvrest⟩ := hv
      simp only [runLoop]
      cases ho : (frameBody env s).2.2 with
      | fatal msg =>
          simp only [ho]
          exact frameBody_recordSafe env s d hwf hidx
      | ok =>
          simp only [ho]
          rw [recordSafeFrom_append]
          rw [frameBody_recordSafe env s d hwf hidx]
          have hwf2 := frameBody_preserves_WF env s d hwf hcnt ho
          have hlen := frameBody_frameBuffers_length env s
          have hcount := frameBody_count env s ho
          have hvrest2 : validEnvs (frameBody env s).1.frameBuffers.length rest
              (frameBody env s).1.swapchainImageCount = true := by
            rw [hlen, hcount]
            exact hvrest
          rw [runLoop_recordSafe rest (frameBody env s).1
            (d ++ destroyedIn (frameBody env s).2.1) hwf2 hvrest2]
          rfl

/-- A create-free prefix does not affect the destroy-after-create scanner. -/
theorem ndac_skip : ∀ (t1 t2 : List Event),
    (∀ e ∈ t1, isCreateEvent e = false) →
    noDestroyAfterCreate (t1 ++ t2) = noDestroyAfterCreate t2
  | [], _, _ => rfl
  | e :: rest, t2, h => by
      have he := h e (List.mem_cons_self e rest)
      simp only [List.cons_append, noDestroyAfterCreate, he]
      simp only [Bool.false_eq_true, if_false]
      exact ndac_skip rest t2 (fun x hx => h x (List.mem_cons_of_mem e hx))

/-- A destroy-free trace passes the destroy-after-create scanner. -/
theorem ndac_all : ∀ t : List Event,
    (∀ e ∈ t, isDestroyEvent e = false) → noDestroyAfterCreate t = true
  | [], _ => rfl
  | e :: rest, h => by
      have hrest := fun x hx => h x (List.mem_cons_of_mem e hx)
      simp only [noDestroyAfterCreate]
      by_cases hce : isCreateEvent e = true
      · rw [if_pos hce, List.all_eq_true]
        intro x hx
        simp [hrest x hx]
      · rw [if_neg hce]
        exact ndac_all rest hrest

/-- C5: after an out-of-date present (with working submission calls), the
iteration first waits for the device to go idle — no resource is destroyed
before the `deviceWaitIdle` event — then destroys the old framebuffers, image
views, swapchain and depth resources, and only then creates the new resources
(no destroy event ever follows a create event in the iteration's trace); and
across every valid run of the loop, no command buffer is ever recorded
against a previously destroyed framebuffer. -/
theorem C5_recreation_order_and_record_safety
    (env : FrameEnv) (s : LoopState)
    (h1 : env.acquireResult = VkResult.success)
    (h2 : env.submitResult = VkResult.success)
    (h3 : env.queueWaitIdleResult = VkResult.success)
    (h4 : env.presentResult = VkResult.errorOutOfDateKHR)
    (envs : List FrameEnv) (s0 : LoopState)
    (hwf : StateWF [] s0)
    (hv : validEnvs s0.frameBuffers.length envs s0.swapchainImageCount = true) :
    noDestroyBeforeWaitIdle (frameBody env s).2.1 = true
    ∧ noDestroyAfterCreate (frameBody env s).2.1 = true
    ∧ (∀ fb ∈ s.frameBuffers, Event.destroyFramebuffer fb ∈ (frameBody env s).2.1)
    ∧ (∀ v ∈ s.chainImageViews, Event.destroyImageView v ∈ (frameBody env s).2.1)
    ∧ Event.destroySwapchain s.swapchain ∈ (frameBody env s).2.1
    ∧ recordSafe (runLoop envs s0).2.1 = true := by
  obtain ⟨rest, hsplit, hcreate⟩ := recreate_trace_split env s
  have hood := frameBody_ood_split env s h1 h2 h3 h4
  have htr : (frameBody env s).2.1 =
      ([Event.resetFences, Event.acquire VkResult.success env.acquireIndex,
        Event.record (s.frameBuffers.getD env.acquireIndex 0)
          (s.commandBuffers.getD env.acquireIndex 0),
        Event.submit (submitInfoFor (s.commandBuffers.getD env.acquireIndex 0)),
        Event.queueWaitIdle,
        Event.present (presentInfoFor s.swapchain env.acquireIndex)]
        ++ (recreate env s).2.1)
        ++ (match (recreate env s).2.2 with
            | Outcome.ok =>
                [Event.waitForFences,
                 Event.resetCommandBuffer (s.commandBuffers.getD env.acquireIndex 0)]
            | Outcome.fatal _ => []) := by
    rw [hood]
  rw [htr, hsplit]
  refine ⟨rfl, ?_, ?_, ?_, ?_, ?_⟩
  · have hassoc :
        ([Event.resetFences, Event.acquire VkResult.success env.acquireIndex,
          Event.record (s.frameBuffers.getD env.acquireIndex 0)
            (s.commandBuffers.getD env.acquireIndex 0),
          Event.submit (submitInfoFor (s.commandBuffers.getD env.acquireIndex 0)),
          Event.queueWaitIdle,
          Event.present (presentInfoFor s.swapchain env.acquireIndex)]
          ++ (Event.deviceWaitIdle ::
              (s.frameBuffers.map Event.destroyFramebuffer
                ++ s.chainImageViews.map Event.destroyImageView
                ++ [Event.destroySwapchain s.swapchain, Event.destroyDepthView,
                    Event.destroyDepthImage, Event.freeDepthMemory])
              ++ rest))
          ++ (match (recreate env s).2.2 with
              | Outcome.ok =>
                  [Event.waitForFences,
                   Event.resetCommandBuffer (s.commandBuffers.getD env.acquireIndex 0)]
              | Outcome.fatal _ => []) =
        ([Event.resetFences, Event.acquire VkResult.success env.acquireIndex,
          Event.record (s.frameBuffers.getD env.acquireIndex 0)
            (s.commandBuffers.getD env.acquireIndex 0),
          Event.submit (submitInfoFor (s.commandBuffers.getD env.acquireIndex 0)),
          Event.queueWaitIdle,
          Event.present (presentInfoFor s.swapchain env.acquireIndex)]
          ++ Event.deviceWaitIdle ::
              (s.frameBuffers.map Event.destroyFramebuffer
                ++ s.chainImageViews.map Event.destroyImageView
                ++ [Event.destroySwapchain s.swapchain, Event.destroyDepthView,
                    Event.destroyDepthImage, Event.freeDepthMemory]))
          ++ (rest
              ++ (match (recreate env s).2.2 with
                  | Outcome.ok =>
                      [Event.waitForFences,
                       Event.resetCommandBuffer (s.commandBuffers.getD env.acquireIndex 0)]
                  | Outcome.fatal _ => [])) := by
      simp [List.append_assoc]
    rw [hassoc, ndac_skip]
    · refine ndac_all _ ?_
      intro e he
      rcases List.mem_append.mp he with h | h
      · exact (create_event_kinds e (hcreate e h)).1
      · cases ho : (recreate env s).2.2 with
        | ok =>
            rw [ho] at h
            simp only [List.mem_cons, List.not_mem_nil, or_false] at h
            rcases h with h | h <;> subst h <;> rfl
        | fatal msg =>
            rw [ho] at h
            exact absurd h (List.not_mem_nil e)
    · intro e he
      cases e <;> try rfl
      all_goals (exfalso; simp at he)
  · intro fb hfb
    exact List.mem_append_left _ (List.mem_append_right _
      (List.mem_append_left _ (List.mem_cons_of_mem _
        (List.mem_append_left _ (List.mem_append_left _
          (List.mem_map_of_mem _ hfb))))))
  · intro v hv2
    exact List.mem_append_left _ (List.mem_append_right _
      (List.mem_append_left _ (List.mem_cons_of_mem _
        (List.mem_append_left _ (List.mem_append_right _
          (List.mem_map_of_mem _ hv2))))))
  · exact List.mem_append_left _ (List.mem_append_right _
      (List.mem_append_left _ (List.mem_cons_of_mem _
        (List.mem_append_right _ (List.mem_cons_self _ _)))))
  · exact runLoop_recordSafe envs s0 [] hwf hv

/-- Witness for `C5_recreation_order_and_record_safety` at the out-of-date
iteration `envOutOfDate` on `sampleState` and a three-iteration run containing
a recreation. -/
theorem C5_recreation_order_and_record_safety_witness :
    noDestroyBeforeWaitIdle (frameBody envOutOfDate sampleState).2.1 = true
    ∧ noDestroyAfterCreate (frameBody envOutOfDate sampleState).2.1 = true
    ∧ Event.destroySwapchain sampleState.swapchain ∈
        (frameBody envOutOfDate sampleState).2.1
    ∧ recordSafe
        (runLoop [envPresentOk, envOutOfDate, envPresentOk] sampleState).2.1 = true := by
  obtain ⟨a, b, _, _, e, f⟩ :=
    C5_recreation_order_and_record_safety envOutOfDate sampleState rfl rfl rfl rfl
      [envPresentOk, envOutOfDate, envPresentOk] sampleState
      (by unfold StateWF; decide) (by decide)
  exact ⟨a, b, e, f⟩

end VulkanDemo
